import Mathlib

/-
Verification of the minio-enrich-metadata pipeline (src/main.py and
src/async-main.py) against its natural-language specification.

The Python sources are shallowly embedded:
- pydantic models (MinioObject, WeaviateClass) become structures; pydantic's
  per-instance record of explicitly-set fields (used by dict(exclude_unset=True))
  is carried as boolean flags on the structure.
- Python dicts over string keys become association lists with unique keys;
  dict.update is embedded preserving insertion order, as Python does.
- The external minio / weaviate / aiohttp clients are embedded as records of
  functions returning Except (an operation either returns a value or raises).
  Each stage function additionally returns the list of client calls it issued,
  so that claims about which effects were performed (writes issued, downstream
  stages invoked, metadata committed) are about an explicit trace.
- The weaviate index store is carried as explicit state through the indexing
  stage, so that append-vs-upsert behaviour of data_object.create is visible.
-/

/-- A JSON-like value, the embedding of Python values stored in metadata
dictionaries and model fields. -/
inductive Value where
  | str (s : String)
  | int (n : Int)
  | dict (d : List (String × Value))
  | null

/-- Lookup in a string-keyed association list (embedding of Python dict access).
Returns the first binding for the key; dicts built by the embedding have unique
keys, as Python dicts do. -/
def dlookup : List (String × Value) → String → Option Value
  | [], _ => none
  | (k, v) :: rest, q => if q = k then some v else dlookup rest q

/-- Embedding of a single-key Python dict assignment d[k] = v: replaces the
value at an existing key in place (keeping its position, as Python does) or
appends the new binding at the end. -/
def dictSet : List (String × Value) → String → Value → List (String × Value)
  | [], k, v => [(k, v)]
  | (k1, v1) :: rest, k, v =>
    if k1 = k then (k, v) :: rest else (k1, v1) :: dictSet rest k v

/-- Embedding of Python dict.update: apply every binding of the second dict to
the first, in order. -/
def dictUpdate (m d : List (String × Value)) : List (String × Value) :=
  d.foldl (fun acc p => dictSet acc p.1 p.2) m

/-- First-wins choice on optional values, used to state lookup specifications. -/
def oElse (a b : Option Value) : Option Value :=
  match a with
  | some v => some v
  | none => b

/-- Embedding of the pydantic model MinioObject (src/main.py lines 10-14,
src/async-main.py lines 7-11): key is required, the other fields default.
The three boolean flags record which optional fields were explicitly passed to
the constructor; pydantic keeps the same record and uses it for
dict(exclude_unset=True). The required field key is always explicitly set. -/
structure MinioObject where
  key : String
  size : Option Int
  metadata : List (String × Value)
  etag : Option String
  size_set : Bool
  metadata_set : Bool
  etag_set : Bool

/-- Python None / Optional[int] as a Value. -/
def valueOfOptInt : Option Int → Value
  | some n => Value.int n
  | none => Value.null

/-- Python None / Optional[str] as a Value. -/
def valueOfOptStr : Option String → Value
  | some s => Value.str s
  | none => Value.null

/-- Embedding of minio_model.dict(exclude_unset=True) (src/main.py line 28):
the dict of explicitly-set fields, in field declaration order. -/
def MinioObject.dictExcludeUnset (m : MinioObject) : List (String × Value) :=
  [("key", Value.str m.key)]
    ++ (if m.size_set then [("size", valueOfOptInt m.size)] else [])
    ++ (if m.metadata_set then [("metadata", Value.dict m.metadata)] else [])
    ++ (if m.etag_set then [("etag", valueOfOptStr m.etag)] else [])

/-- Embedding of the constructor call MinioObject(key=object_key, metadata=metadata)
used by the indexing stage (src/main.py line 76, src/async-main.py line 44):
only key and metadata are explicitly set. -/
def MinioObject.ofKeyMetadata (k : String) (md : List (String × Value)) : MinioObject :=
  ⟨k, none, md, none, false, true, false⟩

/-- Embedding of the pydantic model WeaviateClass (src/main.py lines 20-24). -/
structure WeaviateClass where
  class_name : String
  properties : List (String × Value)
  id : Option String
  context : List (String × Value)

/-- Embedding of WeaviateClass.from_minio_model (src/main.py lines 26-31):
model_dict = minio_model.dict(exclude_unset=True); if additional_props:
model_dict.update(additional_props); return cls(class_name=..., properties=model_dict).
Python truthiness makes both None and the empty dict skip the update; id and
context take their defaults (None and the empty dict). -/
def WeaviateClass.from_minio_model (class_name : String) (minio_model : MinioObject)
    (additional_props : Option (List (String × Value))) : WeaviateClass :=
  let model_dict := minio_model.dictExcludeUnset
  let model_dict :=
    match additional_props with
    | some d => if d.isEmpty then model_dict else dictUpdate model_dict d
    | none => model_dict
  ⟨class_name, model_dict, none, []⟩

/-- A Python exception raised by a client call, identified by its message. -/
structure Exn where
  msg : String

/-- The value returned by minio_client.get_object: a handle exposing the
content (via read()) and stat().st_size. -/
structure ObjHandle where
  content : String
  st_size : Int

/-- The value returned by minio_client.stat_object: metadata and etag. -/
structure StatRes where
  metadata : List (String × Value)
  etag : String

/-- The dict returned by fetch_object_content_and_metadata on success:
{"content": ..., "metadata": ...}. -/
structure FetchRes where
  content : String
  metadata : List (String × Value)

/-- One client call issued by a stage, with its arguments. Calls are recorded
in the order the Python code performs them. -/
inductive Call where
  | get (bucket key : String)
  | put (bucket key : String)
  | statc (bucket key : String)
  | copy (bucket key source : String) (metadata : List (String × Value))
  | create (class_name : String) (obj : WeaviateClass)

/-- The pipeline stages of the coordinator, used to record which stages a
coordinator run invoked, in order. -/
inductive Stage where
  | replicate
  | fetch
  | enrich
  | commit
  | index
  deriving DecidableEq

/-- The behaviour of the external minio client: each operation either returns
a value or raises an exception. The embedded stage functions call these
operations exactly where src/main.py calls minio_client. -/
structure MinioClientBeh where
  get_object : String → String → Except Exn ObjHandle
  put_object : String → String → ObjHandle → Int → Except Exn Unit
  stat_object : String → String → Except Exn StatRes
  copy_object : String → String → String → List (String × Value) → Except Exn Unit

/-- The weaviate index store: the list of records created so far, each a
(class name, object) pair, in creation order. -/
abbrev WStore := List (String × WeaviateClass)

/-- The behaviour of the external weaviate client: data_object.create takes
the object dict and the class name and transforms the index store (or raises). -/
structure WeaviateClientBeh where
  create : WeaviateClass → String → WStore → Except Exn WStore

/-- Embedding of replicate_object (src/main.py lines 43-50, identical body to
MinioWeaviateManager.replicate_object_sync in src/async-main.py lines 33-40):
get_object from the source, put_object to the target with the handle and its
stat().st_size; any exception is caught and False is returned. The second
component is the trace of client calls issued. -/
def replicate_object (c : MinioClientBeh) (source_bucket target_bucket object_key : String) :
    Bool × List Call :=
  match c.get_object source_bucket object_key with
  | Except.error _ => (false, [Call.get source_bucket object_key])
  | Except.ok source_object =>
    match c.put_object target_bucket object_key source_object source_object.st_size with
    | Except.error _ =>
      (false, [Call.get source_bucket object_key, Call.put target_bucket object_key])
    | Except.ok _ =>
      (true, [Call.get source_bucket object_key, Call.put target_bucket object_key])

/-- Embedding of fetch_object_content_and_metadata (src/main.py lines 52-60):
get_object, stat_object, read the content; any exception yields None. -/
def fetch_object_content_and_metadata (c : MinioClientBeh) (bucket object_key : String) :
    Option FetchRes × List Call :=
  match c.get_object bucket object_key with
  | Except.error _ => (none, [Call.get bucket object_key])
  | Except.ok object_data =>
    match c.stat_object bucket object_key with
    | Except.error _ => (none, [Call.get bucket object_key, Call.statc bucket object_key])
    | Except.ok st =>
      (some ⟨object_data.content, st.metadata⟩,
       [Call.get bucket object_key, Call.statc bucket object_key])

/-- Embedding of process_object_content_for_metadata_enrichment (src/main.py
lines 62-64): a total stub returning the fixed placeholder dict
{"example_key": "example_value"} for every content. -/
def process_object_content_for_metadata_enrichment (_content : String) :
    List (String × Value) :=
  [("example_key", Value.str "example_value")]

/-- Embedding of update_object_metadata_in_minio (src/main.py lines 66-72):
copy_object(bucket, key, "/{bucket}/{key}", metadata=metadata); any exception
is caught and False returned. -/
def update_object_metadata_in_minio (c : MinioClientBeh) (bucket object_key : String)
    (metadata : List (String × Value)) : Bool × List Call :=
  match c.copy_object bucket object_key ("/" ++ bucket ++ "/" ++ object_key) metadata with
  | Except.error _ =>
    (false, [Call.copy bucket object_key ("/" ++ bucket ++ "/" ++ object_key) metadata])
  | Except.ok _ =>
    (true, [Call.copy bucket object_key ("/" ++ bucket ++ "/" ++ object_key) metadata])

/-- Embedding of index_object_and_metadata_in_weaviate (src/main.py lines 74-81,
identical body to MinioWeaviateManager.index_object_sync in src/async-main.py
lines 42-49): build the WeaviateClass from a fresh MinioObject carrying only
key and metadata, then weaviate_client.data_object.create(data_object.dict(),
class_name); any exception is caught and False returned. Returns the result,
the resulting index store, and the trace. -/
def index_object_and_metadata_in_weaviate (w : WeaviateClientBeh) (ws : WStore)
    (class_name object_key : String) (metadata : List (String × Value)) :
    Bool × WStore × List Call :=
  let data_object :=
    WeaviateClass.from_minio_model class_name (MinioObject.ofKeyMetadata object_key metadata) none
  match w.create data_object class_name ws with
  | Except.error _ => (false, ws, [Call.create class_name data_object])
  | Except.ok ws1 => (true, ws1, [Call.create class_name data_object])

/-- Embedding of the synchronous coordinator handle_minio_event (src/main.py
lines 83-89): replicate; if True, fetch; if not None, enrich; commit the
enriched metadata; if True, index. Returns the stages invoked in order, the
full trace of client calls, and the resulting index store. The result of the
indexing stage is discarded, as in the source. -/
def handle_minio_event (mc : MinioClientBeh) (w : WeaviateClientBeh) (ws : WStore)
    (class_name source_bucket target_bucket object_key : String) :
    List Stage × List Call × WStore :=
  let r1 := replicate_object mc source_bucket target_bucket object_key
  if r1.1 then
    let r2 := fetch_object_content_and_metadata mc target_bucket object_key
    match r2.1 with
    | some object_data =>
      let enriched_metadata := process_object_content_for_metadata_enrichment object_data.content
      let r3 := update_object_metadata_in_minio mc target_bucket object_key enriched_metadata
      if r3.1 then
        let r4 := index_object_and_metadata_in_weaviate w ws class_name object_key enriched_metadata
        ([Stage.replicate, Stage.fetch, Stage.enrich, Stage.commit, Stage.index],
         r1.2 ++ r2.2 ++ r3.2 ++ r4.2.2, r4.2.1)
      else
        ([Stage.replicate, Stage.fetch, Stage.enrich, Stage.commit],
         r1.2 ++ r2.2 ++ r3.2, ws)
    | none => ([Stage.replicate, Stage.fetch], r1.2 ++ r2.2, ws)
  else ([Stage.replicate], r1.2, ws)

/-- The behaviour of a MinioManager instance as seen by the asynchronous
coordinator in src/main.py (lines 110-124): replicate_object and
fetch_object_content_and_metadata methods. handle_minio_event_async receives
the manager as a parameter and only calls these two methods. -/
structure MinioManagerBeh where
  replicate_object : String → String → String → Bool
  fetch_object_content_and_metadata : String → String → Option FetchRes

/-- The behaviour of a WeaviateManager instance as seen by the asynchronous
coordinator in src/main.py (lines 126-133): the index_object method. -/
structure WeaviateManagerBeh where
  index_object : String → String → List (String × Value) → Bool

/-- The MinioManager class of src/main.py (lines 110-124): both methods are
placeholders, replicate_object always returns True and
fetch_object_content_and_metadata always returns the fixed example dict.
The constructor arguments (endpoint, access_key, secret_key) are unused by
the methods. -/
def minioManagerInstance : MinioManagerBeh :=
  ⟨fun _ _ _ => true,
   fun _ _ => some ⟨"example_content", [("example_key", Value.str "example_value")]⟩⟩

/-- The WeaviateManager class of src/main.py (lines 126-133): index_object is
a placeholder always returning True. -/
def weaviateManagerInstance : WeaviateManagerBeh :=
  ⟨fun _ _ _ => true⟩

/-- Embedding of the asynchronous coordinator handle_minio_event_async
(src/main.py lines 135-150): replicate; if successful, fetch; if not None,
compute the inline placeholder enriched metadata {"processed_key":
"processed_value"} and call index_object, only printing on its outcome.
There is no metadata-commit step in this coordinator. The result is the list
of pipeline steps performed, in order; the inline enrichment assignment is
recorded as the enrichment step. -/
def handle_minio_event_async (minio_manager : MinioManagerBeh)
    (weaviate_manager : WeaviateManagerBeh)
    (class_name source_bucket target_bucket object_key : String) : List Stage :=
  if minio_manager.replicate_object source_bucket target_bucket object_key then
    match minio_manager.fetch_object_content_and_metadata target_bucket object_key with
    | some _ =>
      let enriched_metadata := [("processed_key", Value.str "processed_value")]
      let _index_success := weaviate_manager.index_object class_name object_key enriched_metadata
      [Stage.replicate, Stage.fetch, Stage.enrich, Stage.index]
    | none => [Stage.replicate, Stage.fetch]
  else [Stage.replicate]

/-- An HTTP response as seen by the aiohttp session in src/async-main.py:
a status code and the body returned by read(). -/
structure HttpResp where
  status : Nat
  body : String

/-- The behaviour of the aiohttp ClientSession used by
AsyncMinioWeaviateManager: a GET by url and a PUT by url with a data body;
either may raise. -/
structure HttpSession where
  get_resp : String → Except Exn HttpResp
  put_resp : String → String → Except Exn HttpResp

/-- One HTTP request issued by the asynchronous manager, with its arguments. -/
inductive Req where
  | get (url : String)
  | put (url : String) (data : String)

/-- Embedding of AsyncMinioWeaviateManager (src/async-main.py lines 51-86):
endpoints and the HTTP session held by the instance. -/
structure AsyncMinioWeaviateManager where
  minio_endpoint : String
  weaviate_endpoint : String
  session : HttpSession

/-- Embedding of AsyncMinioWeaviateManager.replicate_object_async
(src/async-main.py lines 57-73): GET {minio_endpoint}/{source_bucket}/{key};
if the status is 200, read the body and PUT it to
{minio_endpoint}/{target_bucket}/{key}, returning whether the PUT status is
200; on any other GET status return False without issuing the PUT; any
exception is caught and False returned. The second component is the trace of
HTTP requests issued. -/
def AsyncMinioWeaviateManager.replicate_object_async (m : AsyncMinioWeaviateManager)
    (source_bucket target_bucket object_key : String) : Bool × List Req :=
  let object_url := m.minio_endpoint ++ "/" ++ source_bucket ++ "/" ++ object_key
  match m.session.get_resp object_url with
  | Except.error _ => (false, [Req.get object_url])
  | Except.ok response =>
    if response.status = 200 then
      let object_data := response.body
      let target_url := m.minio_endpoint ++ "/" ++ target_bucket ++ "/" ++ object_key
      match m.session.put_resp target_url object_data with
      | Except.error _ => (false, [Req.get object_url, Req.put target_url object_data])
      | Except.ok put_response =>
        (decide (put_response.status = 200),
         [Req.get object_url, Req.put target_url object_data])
    else (false, [Req.get object_url])

/-- An object held by the object store: content, size, etag and metadata. -/
structure StoredObj where
  content : String
  size : Int
  etag : String
  metadata : List (String × Value)

/-- A state of the external object store: the objects held, addressed by
(bucket, key). -/
abbrev Store := List ((String × String) × StoredObj)

/-- Lookup of an object in a store state by bucket and key. -/
def storeFind : Store → String → String → Option StoredObj
  | [], _, _ => none
  | (bk, o) :: rest, b, k => if bk.1 = b ∧ bk.2 = k then some o else storeFind rest b k

/-- A minio client behaving as a healthy store in state st: reads and stats
succeed exactly on present objects (raising NoSuchKey otherwise), writes and
copies succeed. This models the external store SDK; the stages observe it
only through the four operations. -/
def clientOfStore (st : Store) : MinioClientBeh where
  get_object := fun b k =>
    match storeFind st b k with
    | some o => Except.ok ⟨o.content, o.size⟩
    | none => Except.error ⟨"NoSuchKey"⟩
  put_object := fun _ _ _ _ => Except.ok ()
  stat_object := fun b k =>
    match storeFind st b k with
    | some o => Except.ok ⟨o.metadata, o.etag⟩
    | none => Except.error ⟨"NoSuchKey"⟩
  copy_object := fun b k _ _ =>
    match storeFind st b k with
    | some _ => Except.ok ()
    | none => Except.error ⟨"NoSuchKey"⟩

/-- The healthy weaviate client: data_object.create succeeds and, since the
caller supplies no id, always inserts a fresh record at the end of the store.
This models the external index SDK's create (not upsert) operation. -/
def appendClient : WeaviateClientBeh :=
  ⟨fun obj cn ws => Except.ok (List.append ws [(cn, obj)])⟩

/-- A minio client every operation of which raises an exception with the given
message. -/
def errClient (r : String) : MinioClientBeh where
  get_object := fun _ _ => Except.error ⟨r⟩
  put_object := fun _ _ _ _ => Except.error ⟨r⟩
  stat_object := fun _ _ => Except.error ⟨r⟩
  copy_object := fun _ _ _ _ => Except.error ⟨r⟩

/-- A minio client whose reads succeed but whose put, stat and copy raise. -/
def mixedClient : MinioClientBeh where
  get_object := fun _ _ => Except.ok ⟨"c", 1⟩
  put_object := fun _ _ _ _ => Except.error ⟨"put failed"⟩
  stat_object := fun _ _ => Except.error ⟨"stat failed"⟩
  copy_object := fun _ _ _ _ => Except.error ⟨"copy failed"⟩

/-- A minio client whose copy raises with a message differing only in the
reason string, while all other operations succeed; used to compare coordinator
runs under distinct commit-failure reasons. -/
def errCopyClient (r : String) : MinioClientBeh where
  get_object := fun _ _ => Except.ok ⟨"c", 1⟩
  put_object := fun _ _ _ _ => Except.ok ()
  stat_object := fun _ _ => Except.ok ⟨[("a", Value.str "1")], "e1"⟩
  copy_object := fun _ _ _ _ => Except.error ⟨r⟩

/-- A minio client for which the metadata-commit write fails with a
precondition-mismatch (etag changed) conflict, while every read succeeds. -/
def conflictClient : MinioClientBeh :=
  errCopyClient "ConflictError: etag changed since read"

/-- A weaviate client whose create raises. -/
def errWClient (r : String) : WeaviateClientBeh :=
  ⟨fun _ _ _ => Except.error ⟨r⟩⟩

/-- An HTTP session every request of which raises. -/
def errSession (r : String) : HttpSession :=
  ⟨fun _ => Except.error ⟨r⟩, fun _ _ => Except.error ⟨r⟩⟩

/-- An HTTP session whose GETs return status 200 but whose PUTs raise. -/
def mixedSession : HttpSession :=
  ⟨fun _ => Except.ok ⟨200, "body"⟩, fun _ _ => Except.error ⟨"put failed"⟩⟩

/-- An HTTP session whose GETs return status 404. -/
def notFoundSession : HttpSession :=
  ⟨fun _ => Except.ok ⟨404, "not found"⟩, fun _ _ => Except.ok ⟨200, ""⟩⟩

/-- The stored object used by the concrete pipeline runs: content "content1",
etag "e1", existing metadata {"a": "1"}. -/
def storedObjA : StoredObj :=
  ⟨"content1", 8, "e1", [("a", Value.str "1")]⟩

/-- A store state in which the source bucket raw and the target bucket proc
both already hold the identical object storedObjA under key "k" (same etag),
so the target already holds what replication would write. -/
def storeBothBuckets : Store :=
  [(("raw", "k"), storedObjA), (("proc", "k"), storedObjA)]

/-- Whether a call is a put, i.e. a write of object data against the store. -/
def isPutCall : Call → Bool
  | Call.put _ _ => true
  | _ => false

/-- Whether a call is a get, i.e. a read of object data from the store. -/
def isGetCall : Call → Bool
  | Call.get _ _ => true
  | _ => false

/-- Whether a call is a copy, i.e. a metadata-commit write against the store. -/
def isCopyCall : Call → Bool
  | Call.copy _ _ _ _ => true
  | _ => false

/-- Number of object-data writes (puts) in a trace. -/
def writeCount (t : List Call) : Nat := (t.filter isPutCall).length

/-- Number of object-data reads (gets) in a trace. -/
def readCount (t : List Call) : Nat := (t.filter isGetCall).length

/-- Number of metadata-commit attempts (copies) in a trace. -/
def copyCount (t : List Call) : Nat := (t.filter isCopyCall).length

/-- The metadata dictionaries committed to the store by a trace: the metadata
arguments of its copy calls, in order. -/
def committedMds (t : List Call) : List (List (String × Value)) :=
  t.filterMap fun c =>
    match c with
    | Call.copy _ _ _ md => some md
    | _ => none

/-- The first record created in the index store by a trace, if any. -/
def firstCreated (t : List Call) : Option WeaviateClass :=
  t.filterMap (fun c => match c with | Call.create _ obj => some obj | _ => none) |>.head?

/-- Whether an HTTP request is a PUT. -/
def isPutReq : Req → Bool
  | Req.put _ _ => true
  | _ => false

/-- The key property of an index record, read back from its properties dict;
used to count the records an index store holds for a given object key. -/
def recordKey (w : WeaviateClass) : Option String :=
  match dlookup w.properties "key" with
  | some (Value.str s) => some s
  | _ => none

/-- Number of records an index store holds for a given object key. -/
def countForKey (ws : WStore) (k : String) : Nat :=
  (List.filter (fun p => recordKey p.2 == some k) ws).length

/-- Whether an Except value is a success. -/
def isOkE {α : Type} : Except Exn α → Bool
  | Except.ok _ => true
  | Except.error _ => false

/-- Observation used to distinguish property dictionaries: whether the record
has an etag property at top level. -/
def obsEtag (o : Option WeaviateClass) : Option Bool :=
  o.map fun c => (dlookup c.properties "etag").isSome

/-- Observation used to distinguish committed metadata: the first key of the
first committed dictionary. -/
def obsHeadKey (ll : List (List (String × Value))) : Option (Option String) :=
  ll.head?.map fun l => l.head?.map Prod.fst

/-- Lookup into an optional dict, used to state the from_minio_model
override property. -/
def optLookup (d : Option (List (String × Value))) (k : String) : Option Value :=
  match d with
  | some dd => dlookup dd k
  | none => none

/-- The full ordered stage list of the synchronous coordinator. -/
def fullSyncStages : List Stage :=
  [Stage.replicate, Stage.fetch, Stage.enrich, Stage.commit, Stage.index]

/-- The full ordered stage list of the asynchronous coordinator in
src/main.py, which has no metadata-commit step. -/
def fullAsyncStages : List Stage :=
  [Stage.replicate, Stage.fetch, Stage.enrich, Stage.index]

/-- A sample MinioObject with every optional field explicitly set, used to
evaluate from_minio_model at a concrete input. -/
def mObjEx : MinioObject :=
  ⟨"obj1", some 5, [("m", Value.str "v")], some "e9", true, true, true⟩

theorem dlookup_dictSet (m : List (String × Value)) (k : String) (v : Value) (q : String) :
    dlookup (dictSet m k v) q = if q = k then some v else dlookup m q := by
  induction m with
  | nil => simp [dictSet, dlookup]
  | cons p rest ih =>
    obtain ⟨k1, v1⟩ := p
    by_cases h1 : k1 = k
    · subst h1
      simp only [dictSet, if_pos rfl, dlookup]
      by_cases h2 : q = k1 <;> simp [dlookup, h2]
    · simp only [dictSet, if_neg h1, dlookup]
      by_cases h2 : q = k1
      · subst h2
        have hqk : ¬ q = k := h1
        simp [dlookup, hqk]
      · simp [dlookup, h2, ih]

theorem dlookup_eq_none_of_not_mem (l : List (String × Value)) (k : String)
    (h : k ∉ l.map Prod.fst) : dlookup l k = none := by
  induction l with
  | nil => rfl
  | cons p rest ih =>
    obtain ⟨k1, v1⟩ := p
    simp only [List.map_cons, List.mem_cons] at h
    push_neg at h
    simp [dlookup, h.1, ih h.2]

theorem dlookup_dictUpdate (d : List (String × Value)) (m : List (String × Value)) (q : String)
    (hd : (d.map Prod.fst).Nodup) :
    dlookup (dictUpdate m d) q = oElse (dlookup d q) (dlookup m q) := by
  induction d generalizing m with
  | nil => simp [dictUpdate, dlookup, oElse]
  | cons p d2 ih =>
    obtain ⟨k0, v0⟩ := p
    simp only [List.map_cons, List.nodup_cons] at hd
    have step : dictUpdate m ((k0, v0) :: d2) = dictUpdate (dictSet m k0 v0) d2 := rfl
    rw [step, ih (dictSet m k0 v0) hd.2]
    by_cases h : q = k0
    · subst h
      have hnone : dlookup d2 q = none := dlookup_eq_none_of_not_mem d2 q hd.1
      simp [dlookup, oElse, hnone, dlookup_dictSet]
    · simp [dlookup, oElse, h, dlookup_dictSet]

theorem countForKey_append (ws1 ws2 : WStore) (k : String) :
    countForKey (List.append ws1 ws2) k = countForKey ws1 k + countForKey ws2 k := by
  simp [countForKey, List.filter_append]

theorem recordKey_built (cn k : String) (md : List (String × Value)) :
    recordKey (WeaviateClass.from_minio_model cn (MinioObject.ofKeyMetadata k md) none)
      = some k := rfl

/-- Claim C9 (confirmed): for every MinioObject m, class name c and optional
additional_props d (with duplicate-free keys, as a Python dict has),
WeaviateClass.from_minio_model c m d returns a WeaviateClass whose class_name
equals c, whose id is None, and whose properties are the dict of m's
explicitly-set fields updated with d, so that on any key collision the value
from d overrides the value from m. -/
theorem C9_from_minio_model_spec (c : String) (m : MinioObject)
    (d : Option (List (String × Value)))
    (hd : ∀ dd, d = some dd → (dd.map Prod.fst).Nodup) :
    (WeaviateClass.from_minio_model c m d).class_name = c
  ∧ (WeaviateClass.from_minio_model c m d).id = none
  ∧ ∀ q, dlookup (WeaviateClass.from_minio_model c m d).properties q
      = oElse (optLookup d q) (dlookup m.dictExcludeUnset q) := by
  refine ⟨rfl, rfl, ?_⟩
  intro q
  cases d with
  | none => simp [WeaviateClass.from_minio_model, optLookup, oElse]
  | some dd =>
    cases dd with
    | nil => simp [WeaviateClass.from_minio_model, optLookup, dlookup, oElse, List.isEmpty]
    | cons p rest =>
      have hcalc := dlookup_dictUpdate (p :: rest) m.dictExcludeUnset q
        (hd (p :: rest) rfl)
      simpa [WeaviateClass.from_minio_model, optLookup, List.isEmpty] using hcalc

/-- Witness for C9: from_minio_model at a concrete object and concrete
additional_props, the Nodup hypothesis discharged by computation. -/
theorem C9_witness :
    (WeaviateClass.from_minio_model "C" mObjEx (some [("m", Value.str "w")])).class_name = "C" :=
  (C9_from_minio_model_spec "C" mObjEx (some [("m", Value.str "w")])
    (by intro dd hdd; cases hdd; decide)).1

/-- Claim C5 counterexample: at the end-to-end example of the claim — the
indexing stage called with collection "Images", key "img1" and metadata
{"tag": "cat"} — the record passed to data_object.create is not
IndexRecord{collection: "Images", properties: {key: "img1", etag: "e1",
tag: "cat"}}: the record the code builds has no top-level etag property. -/
theorem C5_counterexample :
    ¬ (firstCreated
        (index_object_and_metadata_in_weaviate appendClient [] "Images" "img1"
          [("tag", Value.str "cat")]).2.2
      = some ⟨"Images",
          [("key", Value.str "img1"), ("etag", Value.str "e1"), ("tag", Value.str "cat")],
          none, []⟩) := by
  intro h
  exact absurd (congrArg obsEtag h) (by decide)

/-- Claim C5 (amended): the indexing stage builds its record from a fresh
MinioObject carrying only the object key and the metadata mapping, so for
every class name, key and metadata the record passed to data_object.create
has class_name equal to the collection, id None, and properties exactly
{"key": key, "metadata": metadata}: the source object's etag is not included
and the metadata mapping is nested under the "metadata" property rather than
merged at top level. -/
theorem C5_amended_index_record_shape (w : WeaviateClientBeh) (ws : WStore)
    (cn k : String) (md : List (String × Value)) :
    (index_object_and_metadata_in_weaviate w ws cn k md).2.2
      = [Call.create cn
          ⟨cn, [("key", Value.str k), ("metadata", Value.dict md)], none, []⟩] := by
  simp only [index_object_and_metadata_in_weaviate]
  cases w.create
      (WeaviateClass.from_minio_model cn (MinioObject.ofKeyMetadata k md) none) cn ws <;>
    simp [WeaviateClass.from_minio_model, MinioObject.ofKeyMetadata,
      MinioObject.dictExcludeUnset]

/-- Claim C3 counterexample: starting from the empty index store, indexing
key "img1" twice results in an index store holding two records for "img1" —
not at most one, so the second call did not replace the first. -/
theorem C3_counterexample :
    ¬ (countForKey
        (index_object_and_metadata_in_weaviate appendClient
          (index_object_and_metadata_in_weaviate appendClient [] "Images" "img1"
            [("tag", Value.str "cat")]).2.1
          "Images" "img1" [("tag", Value.str "cat")]).2.1
        "img1" ≤ 1) := by decide

/-- Claim C3 (amended): indexing the same object key twice is an append, not
an upsert: the indexing stage calls data_object.create with no id, so from any
index store, two indexing calls for the same key succeed and leave the store
extended by two fresh records for that key; the first record is not replaced
and the number of records for the key grows by two. -/
theorem C3_amended_indexing_appends (ws : WStore) (cn k : String)
    (md : List (String × Value)) :
    (index_object_and_metadata_in_weaviate appendClient ws cn k md).1 = true
  ∧ (index_object_and_metadata_in_weaviate appendClient
      (index_object_and_metadata_in_weaviate appendClient ws cn k md).2.1 cn k md).1 = true
  ∧ (index_object_and_metadata_in_weaviate appendClient
      (index_object_and_metadata_in_weaviate appendClient ws cn k md).2.1 cn k md).2.1
    = ws ++
        [(cn, WeaviateClass.from_minio_model cn (MinioObject.ofKeyMetadata k md) none),
         (cn, WeaviateClass.from_minio_model cn (MinioObject.ofKeyMetadata k md) none)]
  ∧ countForKey
      (index_object_and_metadata_in_weaviate appendClient
        (index_object_and_metadata_in_weaviate appendClient ws cn k md).2.1 cn k md).2.1 k
    = countForKey ws k + 2 := by
  refine ⟨rfl, rfl, ?_, ?_⟩
  · simp [index_object_and_metadata_in_weaviate, appendClient]
  · simp [index_object_and_metadata_in_weaviate, appendClient, countForKey_append,
      countForKey, recordKey_built]

/-- Claim C4 counterexample: with the target bucket already holding the
identical object (same etag "e1") under key "k", replicate_object returns
True but still issues a write: the trace contains one put, not zero, so the
replication is not a no-op. -/
theorem C4_counterexample :
    (replicate_object (clientOfStore storeBothBuckets) "raw" "proc" "k").1 = true
  ∧ writeCount (replicate_object (clientOfStore storeBothBuckets) "raw" "proc" "k").2 = 1
  ∧ ¬ (writeCount (replicate_object (clientOfStore storeBothBuckets) "raw" "proc" "k").2 = 0) :=
  ⟨rfl, rfl, by decide⟩

/-- Claim C4 (amended): replicate_object performs exactly one read and, as
soon as the read succeeds, exactly one unconditional write — it never checks
the target bucket, so replicating an already-present identical object still
issues a write rather than being a no-op; when the read fails no write is
issued. -/
theorem C4_amended_one_read_one_unconditional_write (c : MinioClientBeh)
    (sb tb k : String) :
    readCount (replicate_object c sb tb k).2 = 1
  ∧ writeCount (replicate_object c sb tb k).2
      = (match c.get_object sb k with | Except.ok _ => 1 | Except.error _ => 0) := by
  cases h : c.get_object sb k with
  | error e =>
    simp [replicate_object, h, readCount, writeCount, isGetCall, isPutCall, List.filter]
  | ok o =>
    cases h2 : c.put_object tb k o o.st_size <;>
      simp [replicate_object, h, h2, readCount, writeCount, isGetCall, isPutCall, List.filter]

theorem copyCount_append (a b : List Call) :
    copyCount (a ++ b) = copyCount a + copyCount b := by
  simp [copyCount, List.filter_append]

theorem copyCount_replicate (c : MinioClientBeh) (sb tb k : String) :
    copyCount (replicate_object c sb tb k).2 = 0 := by
  cases h : c.get_object sb k with
  | error e => simp [replicate_object, h, copyCount, isCopyCall, List.filter]
  | ok o =>
    cases h2 : c.put_object tb k o o.st_size <;>
      simp [replicate_object, h, h2, copyCount, isCopyCall, List.filter]

theorem copyCount_fetch (c : MinioClientBeh) (b k : String) :
    copyCount (fetch_object_content_and_metadata c b k).2 = 0 := by
  cases h : c.get_object b k with
  | error e => simp [fetch_object_content_and_metadata, h, copyCount, isCopyCall, List.filter]
  | ok o =>
    cases h2 : c.stat_object b k <;>
      simp [fetch_object_content_and_metadata, h, h2, copyCount, isCopyCall, List.filter]

theorem copyCount_update (c : MinioClientBeh) (b k : String) (md : List (String × Value)) :
    copyCount (update_object_metadata_in_minio c b k md).2 = 1 := by
  cases h : c.copy_object b k ("/" ++ b ++ "/" ++ k) md <;>
    simp [update_object_metadata_in_minio, h, copyCount, isCopyCall, List.filter]

theorem copyCount_index (w : WeaviateClientBeh) (ws : WStore) (cn k : String)
    (md : List (String × Value)) :
    copyCount (index_object_and_metadata_in_weaviate w ws cn k md).2.2 = 0 := by
  simp only [index_object_and_metadata_in_weaviate]
  cases w.create
      (WeaviateClass.from_minio_model cn (MinioObject.ofKeyMetadata k md) none) cn ws <;>
    simp [copyCount, isCopyCall, List.filter]

theorem update_fails_of_copy_error (c : MinioClientBeh) (b k : String)
    (md : List (String × Value)) (e : Exn)
    (h : c.copy_object b k ("/" ++ b ++ "/" ++ k) md = Except.error e) :
    (update_object_metadata_in_minio c b k md).1 = false := by
  simp [update_object_metadata_in_minio, h]

/-- Exhaustive characterization of the synchronous coordinator: every run
falls in one of four cases, determined by the results of the replication,
fetch, and metadata-commit stages (the enrichment stub always succeeds with
the fixed placeholder dict). -/
theorem handle_minio_event_cases (mc : MinioClientBeh) (w : WeaviateClientBeh)
    (ws : WStore) (cn sb tb k : String) :
    ((replicate_object mc sb tb k).1 = false
      ∧ handle_minio_event mc w ws cn sb tb k
          = ([Stage.replicate], (replicate_object mc sb tb k).2, ws))
  ∨ ((replicate_object mc sb tb k).1 = true
      ∧ (fetch_object_content_and_metadata mc tb k).1 = none
      ∧ handle_minio_event mc w ws cn sb tb k
          = ([Stage.replicate, Stage.fetch],
             (replicate_object mc sb tb k).2 ++ (fetch_object_content_and_metadata mc tb k).2,
             ws))
  ∨ ((replicate_object mc sb tb k).1 = true
      ∧ (∃ od, (fetch_object_content_and_metadata mc tb k).1 = some od)
      ∧ (update_object_metadata_in_minio mc tb k
          [("example_key", Value.str "example_value")]).1 = false
      ∧ handle_minio_event mc w ws cn sb tb k
          = ([Stage.replicate, Stage.fetch, Stage.enrich, Stage.commit],
             (replicate_object mc sb tb k).2 ++ (fetch_object_content_and_metadata mc tb k).2
               ++ (update_object_metadata_in_minio mc tb k
                    [("example_key", Value.str "example_value")]).2,
             ws))
  ∨ ((replicate_object mc sb tb k).1 = true
      ∧ (∃ od, (fetch_object_content_and_metadata mc tb k).1 = some od)
      ∧ (update_object_metadata_in_minio mc tb k
          [("example_key", Value.str "example_value")]).1 = true
      ∧ handle_minio_event mc w ws cn sb tb k
          = ([Stage.replicate, Stage.fetch, Stage.enrich, Stage.commit, Stage.index],
             (replicate_object mc sb tb k).2 ++ (fetch_object_content_and_metadata mc tb k).2
               ++ (update_object_metadata_in_minio mc tb k
                    [("example_key", Value.str "example_value")]).2
               ++ (index_object_and_metadata_in_weaviate w ws cn k
                    [("example_key", Value.str "example_value")]).2.2,
             (index_object_and_metadata_in_weaviate w ws cn k
                    [("example_key", Value.str "example_value")]).2.1)) := by
  cases h1 : (replicate_object mc sb tb k).1 with
  | false => exact Or.inl ⟨rfl, by simp [handle_minio_event, h1]⟩
  | true =>
    cases h2 : (fetch_object_content_and_metadata mc tb k).1 with
    | none =>
      exact Or.inr (Or.inl ⟨rfl, rfl, by simp [handle_minio_event, h1, h2]⟩)
    | some od =>
      cases h3 : (update_object_metadata_in_minio mc tb k
          [("example_key", Value.str "example_value")]).1 with
      | false =>
        refine Or.inr (Or.inr (Or.inl ⟨rfl, ⟨od, rfl⟩, rfl, ?_⟩))
        simp [handle_minio_event, process_object_content_for_metadata_enrichment, h1, h2, h3]
      | true =>
        refine Or.inr (Or.inr (Or.inr ⟨rfl, ⟨od, rfl⟩, rfl, ?_⟩))
        simp [handle_minio_event, process_object_content_for_metadata_enrichment, h1, h2, h3]

/-- Claim C2 (code evaluation for the code_bug finding): the enrichment stage
is a total stub — for every content it succeeds with the fixed placeholder
dict {"example_key": "example_value"} and can never fail — and the pipeline,
run on a store whose target object has existing metadata {"a": "1"}, commits
exactly the placeholder dict, not the existing metadata: the coordinator has
no enrichment-failure fallback path and existing metadata is discarded. -/
theorem C2_enrichment_total_and_existing_metadata_discarded :
    (∀ content, process_object_content_for_metadata_enrichment content
        = [("example_key", Value.str "example_value")])
  ∧ committedMds (handle_minio_event (clientOfStore storeBothBuckets) appendClient []
        "C" "raw" "proc" "k").2.1
      = [[("example_key", Value.str "example_value")]]
  ∧ ¬ (committedMds (handle_minio_event (clientOfStore storeBothBuckets) appendClient []
        "C" "raw" "proc" "k").2.1
      = [[("a", Value.str "1")]]) := by
  refine ⟨fun _ => rfl, rfl, ?_⟩
  intro h
  exact absurd (congrArg obsHeadKey h) (by decide)

/-- Claim C6 counterexample: two coordinator runs that fail in the replication
stage for two different reasons are indistinguishable — the stage surfaces only
the boolean False, so the coordinator cannot record the failure reason. -/
theorem C6_counterexample :
    handle_minio_event (errClient "connection refused") appendClient [] "C" "s" "t" "k"
      = handle_minio_event (errClient "access denied") appendClient [] "C" "s" "t" "k"
  ∧ ("connection refused" : String) ≠ "access denied" :=
  ⟨rfl, by decide⟩

/-- Claim C6 (amended): a stage failure is surfaced to the coordinator only as
an untyped False (or None), never as a tagged StageResult carrying the reason:
for any two failure reasons the coordinator's entire run — stages invoked,
calls issued, resulting index store — is identical, whether the failure is in
replication or in the metadata commit; the coordinator does stop the pipeline
at the failing stage, but it records neither stage name nor reason (the reason
is only printed inside the failing stage). -/
theorem C6_amended_failure_reasons_not_surfaced (r1 r2 cn sb tb k : String) (ws : WStore) :
    handle_minio_event (errClient r1) appendClient ws cn sb tb k
      = handle_minio_event (errClient r2) appendClient ws cn sb tb k
  ∧ (handle_minio_event (errClient r1) appendClient ws cn sb tb k).1 = [Stage.replicate]
  ∧ handle_minio_event (errCopyClient r1) appendClient ws cn sb tb k
      = handle_minio_event (errCopyClient r2) appendClient ws cn sb tb k
  ∧ (handle_minio_event (errCopyClient r1) appendClient ws cn sb tb k).1
      = [Stage.replicate, Stage.fetch, Stage.enrich, Stage.commit] :=
  ⟨rfl, rfl, rfl, rfl⟩

/-- Claim C7 counterexample: with a client for which the metadata-commit write
fails with an etag-changed conflict, the coordinator stops after a single
commit attempt — it never re-reads and never retries the commit. -/
theorem C7_counterexample :
    (handle_minio_event conflictClient appendClient [] "C" "s" "t" "k").1
      = [Stage.replicate, Stage.fetch, Stage.enrich, Stage.commit]
  ∧ copyCount (handle_minio_event conflictClient appendClient [] "C" "s" "t" "k").2.1 = 1
  ∧ ¬ (2 ≤ copyCount (handle_minio_event conflictClient appendClient [] "C" "s" "t" "k").2.1) :=
  ⟨rfl, rfl, by decide⟩

/-- Claim C7 (amended): the coordinator never retries the metadata commit: for
every client a run contains at most one commit attempt, and whenever the commit
write would fail — a ConflictError included — the indexing stage is not invoked
and the pipeline stops for that event without any retry. -/
theorem C7_amended_no_commit_retry (mc : MinioClientBeh) (w : WeaviateClientBeh)
    (ws : WStore) (cn sb tb k : String) :
    copyCount (handle_minio_event mc w ws cn sb tb k).2.1 ≤ 1
  ∧ ((∃ e, mc.copy_object tb k ("/" ++ tb ++ "/" ++ k)
        [("example_key", Value.str "example_value")] = Except.error e) →
      Stage.index ∉ (handle_minio_event mc w ws cn sb tb k).1) := by
  obtain h | h | h | h := handle_minio_event_cases mc w ws cn sb tb k
  · refine ⟨?_, ?_⟩
    · rw [h.2]
      simp [copyCount_replicate]
    · intro _
      rw [h.2]
      exact (by decide : Stage.index ∉ [Stage.replicate])
  · refine ⟨?_, ?_⟩
    · rw [h.2.2]
      simp [copyCount_append, copyCount_replicate, copyCount_fetch]
    · intro _
      rw [h.2.2]
      exact (by decide : Stage.index ∉ [Stage.replicate, Stage.fetch])
  · refine ⟨?_, ?_⟩
    · rw [h.2.2.2]
      simp [copyCount_append, copyCount_replicate, copyCount_fetch, copyCount_update]
    · intro _
      rw [h.2.2.2]
      exact (by decide :
        Stage.index ∉ [Stage.replicate, Stage.fetch, Stage.enrich, Stage.commit])
  · refine ⟨?_, ?_⟩
    · rw [h.2.2.2]
      simp [copyCount_append, copyCount_replicate, copyCount_fetch, copyCount_update,
        copyCount_index]
    · rintro ⟨e, he⟩
      exact absurd h.2.2.1
        (by simp [update_fails_of_copy_error mc tb k _ e he])

/-- Witness for C7 at the conflicting client: the commit fails with a conflict,
and the theorem yields that the indexing stage is not invoked. -/
theorem C7_witness :
    Stage.index ∉ (handle_minio_event conflictClient appendClient [] "C" "s" "t" "k").1 :=
  (C7_amended_no_commit_retry conflictClient appendClient [] "C" "s" "t" "k").2
    ⟨⟨"ConflictError: etag changed since read"⟩, rfl⟩

/-- Claim C1 counterexample: the asynchronous coordinator of src/main.py, run
with its placeholder managers (every stage succeeding), invokes the indexing
stage although it never invokes the metadata-commit stage — so the coordinator
does not run the stages Replication, Enrichment, Metadata Commit, Indexing with
each stage gated on the previous one: Indexing runs without Metadata Commit
ever having run. -/
theorem C1_counterexample :
    Stage.commit ∉ handle_minio_event_async minioManagerInstance weaviateManagerInstance
        "ExampleClass" "source_bucket" "target_bucket" "object_key"
  ∧ Stage.index ∈ handle_minio_event_async minioManagerInstance weaviateManagerInstance
        "ExampleClass" "source_bucket" "target_bucket" "object_key" :=
  ⟨by decide, by decide⟩

/-- Claim C1 (amended): the synchronous coordinator runs Replication, Fetch,
Enrichment, Metadata Commit, Indexing in that order — every run invokes a
prefix of that list, and each of fetch, enrichment, commit and indexing is
invoked only if the stage before it succeeded, so on any failure no downstream
stage runs; the asynchronous coordinator of src/main.py behaves the same but
its stage list is Replication, Fetch, Enrichment, Indexing — it never invokes
a metadata-commit stage. -/
theorem C1_amended_stage_gating :
    (∀ (mc : MinioClientBeh) (w : WeaviateClientBeh) (ws : WStore) (cn sb tb k : String),
        (∃ n, (handle_minio_event mc w ws cn sb tb k).1 = fullSyncStages.take n)
      ∧ (Stage.fetch ∈ (handle_minio_event mc w ws cn sb tb k).1 →
          (replicate_object mc sb tb k).1 = true)
      ∧ (Stage.enrich ∈ (handle_minio_event mc w ws cn sb tb k).1 →
          ((fetch_object_content_and_metadata mc tb k).1).isSome = true)
      ∧ (Stage.commit ∈ (handle_minio_event mc w ws cn sb tb k).1 →
          ((fetch_object_content_and_metadata mc tb k).1).isSome = true)
      ∧ (Stage.index ∈ (handle_minio_event mc w ws cn sb tb k).1 →
          (update_object_metadata_in_minio mc tb k
            [("example_key", Value.str "example_value")]).1 = true))
  ∧ (∀ (mm : MinioManagerBeh) (wm : WeaviateManagerBeh) (cn sb tb k : String),
        (∃ n, handle_minio_event_async mm wm cn sb tb k = fullAsyncStages.take n)
      ∧ (Stage.fetch ∈ handle_minio_event_async mm wm cn sb tb k →
          mm.replicate_object sb tb k = true)
      ∧ (Stage.index ∈ handle_minio_event_async mm wm cn sb tb k →
          (mm.fetch_object_content_and_metadata tb k).isSome = true)
      ∧ Stage.commit ∉ handle_minio_event_async mm wm cn sb tb k) := by
  constructor
  · intro mc w ws cn sb tb k
    obtain h | h | h | h := handle_minio_event_cases mc w ws cn sb tb k
    · have hst : (handle_minio_event mc w ws cn sb tb k).1 = [Stage.replicate] := by
        rw [h.2]
      rw [hst]
      refine ⟨⟨1, rfl⟩, ?_, ?_, ?_, ?_⟩ <;>
        exact fun hm => absurd hm (by decide)
    · have hst : (handle_minio_event mc w ws cn sb tb k).1
          = [Stage.replicate, Stage.fetch] := by
        rw [h.2.2]
      rw [hst]
      refine ⟨⟨2, rfl⟩, fun _ => h.1, ?_, ?_, ?_⟩ <;>
        exact fun hm => absurd hm (by decide)
    · have hst : (handle_minio_event mc w ws cn sb tb k).1
          = [Stage.replicate, Stage.fetch, Stage.enrich, Stage.commit] := by
        rw [h.2.2.2]
      rw [hst]
      obtain ⟨od, hod⟩ := h.2.1
      refine ⟨⟨4, rfl⟩, fun _ => h.1, fun _ => ?_, fun _ => ?_, ?_⟩
      · rw [hod]; rfl
      · rw [hod]; rfl
      · exact fun hm => absurd hm (by decide)
    · have hst : (handle_minio_event mc w ws cn sb tb k).1
          = [Stage.replicate, Stage.fetch, Stage.enrich, Stage.commit, Stage.index] := by
        rw [h.2.2.2]
      rw [hst]
      obtain ⟨od, hod⟩ := h.2.1
      refine ⟨⟨5, rfl⟩, fun _ => h.1, fun _ => ?_, fun _ => ?_, fun _ => h.2.2.1⟩
      · rw [hod]; rfl
      · rw [hod]; rfl
  · intro mm wm cn sb tb k
    cases h1 : mm.replicate_object sb tb k with
    | false =>
      have hrun : handle_minio_event_async mm wm cn sb tb k = [Stage.replicate] := by
        simp [handle_minio_event_async, h1]
      rw [hrun]
      exact ⟨⟨1, rfl⟩, fun hm => absurd hm (by decide),
        fun hm => absurd hm (by decide), by decide⟩
    | true =>
      cases h2 : mm.fetch_object_content_and_metadata tb k with
      | none =>
        have hrun : handle_minio_event_async mm wm cn sb tb k
            = [Stage.replicate, Stage.fetch] := by
          simp [handle_minio_event_async, h1, h2]
        rw [hrun]
        exact ⟨⟨2, rfl⟩, fun _ => rfl, fun hm => absurd hm (by decide), by decide⟩
      | some od =>
        have hrun : handle_minio_event_async mm wm cn sb tb k
            = [Stage.replicate, Stage.fetch, Stage.enrich, Stage.index] := by
          simp [handle_minio_event_async, h1, h2]
        rw [hrun]
        exact ⟨⟨4, rfl⟩, fun _ => rfl, fun _ => rfl, by decide⟩

/-- Witness for C1: at an all-succeeding client the synchronous coordinator
invokes every stage, so the gating hypotheses are all satisfiable; similarly
for the asynchronous coordinator with its placeholder managers. -/
theorem C1_witness :
    (replicate_object (clientOfStore storeBothBuckets) "raw" "proc" "k").1 = true
  ∧ (update_object_metadata_in_minio (clientOfStore storeBothBuckets) "proc" "k"
      [("example_key", Value.str "example_value")]).1 = true
  ∧ minioManagerInstance.replicate_object "s" "t" "k" = true :=
  ⟨(C1_amended_stage_gating.1 (clientOfStore storeBothBuckets) appendClient []
      "C" "raw" "proc" "k").2.1 (by decide),
   (C1_amended_stage_gating.1 (clientOfStore storeBothBuckets) appendClient []
      "C" "raw" "proc" "k").2.2.2.2 (by decide),
   (C1_amended_stage_gating.2 minioManagerInstance weaviateManagerInstance
      "C" "s" "t" "k").2.1 (by decide)⟩

/-- Claim C8 (confirmed): every stage function at the public interface catches
every exception raised by the underlying store, index or HTTP client inside
the function and returns False (None for the fetch function) instead of
propagating it: this holds for replicate_object, for
fetch_object_content_and_metadata, for update_object_metadata_in_minio, for
index_object_and_metadata_in_weaviate, and for
AsyncMinioWeaviateManager.replicate_object_async, at whichever client call the
exception is raised. -/
theorem C8_stage_functions_catch_client_exceptions (c : MinioClientBeh)
    (w : WeaviateClientBeh) (ws : WStore) (am : AsyncMinioWeaviateManager)
    (sb tb b k cn : String) (md : List (String × Value)) :
    (∀ e, c.get_object sb k = Except.error e → (replicate_object c sb tb k).1 = false)
  ∧ (∀ ho e, c.get_object sb k = Except.ok ho →
      c.put_object tb k ho ho.st_size = Except.error e →
      (replicate_object c sb tb k).1 = false)
  ∧ (∀ e, c.get_object b k = Except.error e →
      (fetch_object_content_and_metadata c b k).1 = none)
  ∧ (∀ ho e, c.get_object b k = Except.ok ho → c.stat_object b k = Except.error e →
      (fetch_object_content_and_metadata c b k).1 = none)
  ∧ (∀ e, c.copy_object b k ("/" ++ b ++ "/" ++ k) md = Except.error e →
      (update_object_metadata_in_minio c b k md).1 = false)
  ∧ (∀ e, w.create (WeaviateClass.from_minio_model cn (MinioObject.ofKeyMetadata k md) none)
        cn ws = Except.error e →
      (index_object_and_metadata_in_weaviate w ws cn k md).1 = false)
  ∧ (∀ e, am.session.get_resp (am.minio_endpoint ++ "/" ++ sb ++ "/" ++ k) = Except.error e →
      (am.replicate_object_async sb tb k).1 = false)
  ∧ (∀ resp e,
      am.session.get_resp (am.minio_endpoint ++ "/" ++ sb ++ "/" ++ k) = Except.ok resp →
      am.session.put_resp (am.minio_endpoint ++ "/" ++ tb ++ "/" ++ k) resp.body
        = Except.error e →
      (am.replicate_object_async sb tb k).1 = false) := by
  refine ⟨?_, ?_, ?_, ?_, ?_, ?_, ?_, ?_⟩
  · intro e h
    simp [replicate_object, h]
  · intro ho e h h2
    simp [replicate_object, h, h2]
  · intro e h
    simp [fetch_object_content_and_metadata, h]
  · intro ho e h h2
    simp [fetch_object_content_and_metadata, h, h2]
  · intro e h
    simp [update_object_metadata_in_minio, h]
  · intro e h
    simp [index_object_and_metadata_in_weaviate, h]
  · intro e h
    simp [AsyncMinioWeaviateManager.replicate_object_async, h]
  · intro resp e h h2
    by_cases hs : resp.status = 200
    · simp [AsyncMinioWeaviateManager.replicate_object_async, h, hs, h2]
    · simp [AsyncMinioWeaviateManager.replicate_object_async, h, hs]

/-- Witness for C8: concrete failing clients at every conjunct — a client whose
every operation raises, a client whose reads succeed but later operations
raise, and HTTP sessions that raise on GET or on PUT. -/
theorem C8_witness :
    (replicate_object (errClient "boom") "s" "t" "k").1 = false
  ∧ (replicate_object mixedClient "s" "t" "k").1 = false
  ∧ (fetch_object_content_and_metadata (errClient "boom") "b" "k").1 = none
  ∧ (fetch_object_content_and_metadata mixedClient "b" "k").1 = none
  ∧ (update_object_metadata_in_minio (errClient "boom") "b" "k"
      [("x", Value.str "y")]).1 = false
  ∧ (index_object_and_metadata_in_weaviate (errWClient "boom") [] "C" "k"
      [("x", Value.str "y")]).1 = false
  ∧ ((AsyncMinioWeaviateManager.mk "ep" "wep" (errSession "boom")).replicate_object_async
      "s" "t" "k").1 = false
  ∧ ((AsyncMinioWeaviateManager.mk "ep" "wep" mixedSession).replicate_object_async
      "s" "t" "k").1 = false :=
  ⟨(C8_stage_functions_catch_client_exceptions (errClient "boom") (errWClient "boom") []
      (AsyncMinioWeaviateManager.mk "ep" "wep" (errSession "boom")) "s" "t" "b" "k" "C"
      [("x", Value.str "y")]).1 ⟨"boom"⟩ rfl,
   (C8_stage_functions_catch_client_exceptions mixedClient (errWClient "boom") []
      (AsyncMinioWeaviateManager.mk "ep" "wep" mixedSession) "s" "t" "b" "k" "C"
      [("x", Value.str "y")]).2.1 ⟨"c", 1⟩ ⟨"put failed"⟩ rfl rfl,
   (C8_stage_functions_catch_client_exceptions (errClient "boom") (errWClient "boom") []
      (AsyncMinioWeaviateManager.mk "ep" "wep" (errSession "boom")) "s" "t" "b" "k" "C"
      [("x", Value.str "y")]).2.2.1 ⟨"boom"⟩ rfl,
   (C8_stage_functions_catch_client_exceptions mixedClient (errWClient "boom") []
      (AsyncMinioWeaviateManager.mk "ep" "wep" mixedSession) "s" "t" "b" "k" "C"
      [("x", Value.str "y")]).2.2.2.1 ⟨"c", 1⟩ ⟨"stat failed"⟩ rfl rfl,
   (C8_stage_functions_catch_client_exceptions (errClient "boom") (errWClient "boom") []
      (AsyncMinioWeaviateManager.mk "ep" "wep" (errSession "boom")) "s" "t" "b" "k" "C"
      [("x", Value.str "y")]).2.2.2.2.1 ⟨"boom"⟩ rfl,
   (C8_stage_functions_catch_client_exceptions (errClient "boom") (errWClient "boom") []
      (AsyncMinioWeaviateManager.mk "ep" "wep" (errSession "boom")) "s" "t" "b" "k" "C"
      [("x", Value.str "y")]).2.2.2.2.2.1 ⟨"boom"⟩ rfl,
   (C8_stage_functions_catch_client_exceptions (errClient "boom") (errWClient "boom") []
      (AsyncMinioWeaviateManager.mk "ep" "wep" (errSession "boom")) "s" "t" "b" "k" "C"
      [("x", Value.str "y")]).2.2.2.2.2.2.1 ⟨"boom"⟩ rfl,
   (C8_stage_functions_catch_client_exceptions (errClient "boom") (errWClient "boom") []
      (AsyncMinioWeaviateManager.mk "ep" "wep" mixedSession) "s" "t" "b" "k" "C"
      [("x", Value.str "y")]).2.2.2.2.2.2.2 ⟨200, "body"⟩ ⟨"put failed"⟩ rfl rfl⟩

/-- Claim C10 (confirmed): whenever the GET of the source object in
replicate_object_async returns a status other than 200, the function returns
False having issued only that GET — in particular no PUT is issued to the
target bucket, which is therefore unchanged. -/
theorem C10_get_not_200_no_put (am : AsyncMinioWeaviateManager) (sb tb k : String)
    (resp : HttpResp)
    (h1 : am.session.get_resp (am.minio_endpoint ++ "/" ++ sb ++ "/" ++ k) = Except.ok resp)
    (h2 : resp.status ≠ 200) :
    am.replicate_object_async sb tb k
      = (false, [Req.get (am.minio_endpoint ++ "/" ++ sb ++ "/" ++ k)])
  ∧ ∀ r ∈ (am.replicate_object_async sb tb k).2, isPutReq r = false := by
  have hmain : am.replicate_object_async sb tb k
      = (false, [Req.get (am.minio_endpoint ++ "/" ++ sb ++ "/" ++ k)]) := by
    simp [AsyncMinioWeaviateManager.replicate_object_async, h1, h2]
  refine ⟨hmain, ?_⟩
  rw [hmain]
  intro r hr
  simp only [List.mem_singleton] at hr
  rw [hr]
  rfl

/-- Witness for C10: a session whose GETs return 404 — the function returns
False and its trace is the single GET request. -/
theorem C10_witness :
    (AsyncMinioWeaviateManager.mk "ep" "wep" notFoundSession).replicate_object_async
        "s" "t" "k"
      = (false, [Req.get ("ep" ++ "/" ++ "s" ++ "/" ++ "k")]) :=
  (C10_get_not_200_no_put (AsyncMinioWeaviateManager.mk "ep" "wep" notFoundSession)
    "s" "t" "k" ⟨404, "not found"⟩ rfl (by decide)).1
